import Mathlib

set_option maxHeartbeats 1000000

/- Shallow embedding of the SmartFlow-Ai backend (src/tools.py, src/main.py,
   src/agent.py, src/models.py) for checking the natural-language specification.

   Conventions of the embedding:
   * Database state is an explicit record of table contents (lists of rows);
     a SQLAlchemy / asyncpg session is explicit state passing, with `commit`
     appending the pending rows and every non-commit exit leaving the state
     unchanged (SessionLocal has autocommit=False, so closing a session
     without commit discards pending adds).
   * Tool inputs go through json.loads before any repository code looks at
     them, so tools are modelled as functions of the parse result
     `Option JVal` (`none` = JSONDecodeError) rather than of the raw string;
     this covers every input string, since json.loads is library code.
   * Python exceptions that escape a tool are the `Except.error` channel;
     exception message text rendered by str(e) is abstracted to the
     exception class name (no claim depends on CPython message wording).
   * datetimes are abstracted to naturals with `isoformat` their (injective)
     decimal rendering; uuid.UUID is modelled on its canonical hyphenated
     form (every concrete identifier used below is canonical).
   * models.py and main.py carry two incompatible task schemas (tools.py
     reads Task.due_at, main.py reads/writes tasks.due_date); following the
     source, the tool world (`ToolDB`) and the HTTP world (`ApiDB`) each get
     the schema their file actually uses. -/

/-- JSON values as produced by json.loads: null, booleans, numbers (the
    inputs relevant to the claims are integral), strings, arrays, and
    objects (Python dicts, so field names are distinct). -/
inductive JVal : Type
  | null : JVal
  | bool : Bool → JVal
  | num : Int → JVal
  | str : String → JVal
  | arr : List JVal → JVal
  | obj : List (String × JVal) → JVal
deriving Repr

mutual

/-- Structural equality of json values (Python ==). -/
def jvalBeq : JVal → JVal → Bool
  | .null, .null => true
  | .bool a, .bool b => a == b
  | .num a, .num b => a == b
  | .str a, .str b => a == b
  | .arr xs, .arr ys => jvalListBeq xs ys
  | .obj xs, .obj ys => jvalFieldsBeq xs ys
  | _, _ => false

/-- Structural equality of json arrays. -/
def jvalListBeq : List JVal → List JVal → Bool
  | [], [] => true
  | x :: xs, y :: ys => jvalBeq x y && jvalListBeq xs ys
  | _, _ => false

/-- Structural equality of json object field lists. -/
def jvalFieldsBeq : List (String × JVal) → List (String × JVal) → Bool
  | [], [] => true
  | (k1, v1) :: xs, (k2, v2) :: ys => k1 == k2 && jvalBeq v1 v2 && jvalFieldsBeq xs ys
  | _, _ => false

end

instance : BEq JVal := ⟨jvalBeq⟩

/-- Python truthiness of a json.loads value: None, False, 0, empty string,
    empty list and empty dict are falsy. -/
def pyTruthy : JVal → Bool
  | .null => false
  | .bool b => b
  | .num n => n != 0
  | .str s => s != ""
  | .arr xs => !xs.isEmpty
  | .obj fs => !fs.isEmpty

/-- Python exception escaping repository code (class only; str(e) text is
    abstracted away). -/
inductive PyErr : Type
  | typeError : PyErr
deriving Repr, DecidableEq

/-- Dict field lookup (json.loads dicts have distinct keys, so first match
    is the field). -/
def lookupField (fs : List (String × JVal)) (k : String) : Option JVal :=
  (fs.find? (fun p => p.1 == k)).map (fun p => p.2)

/-- Python membership test k in v for a json.loads value: key test on a
    dict, element test on a list (string-vs-element equality), substring
    test on a string; TypeError on null/bool/number. -/
def pyIn (k : String) : JVal → Except PyErr Bool
  | .obj fs => .ok (fs.any (fun p => p.1 == k))
  | .arr xs => .ok (xs.any (fun v => match v with | .str t => t == k | _ => false))
  | .str s => .ok ((s.splitOn k).length != 1)
  | _ => .error .typeError

/-- Python iteration over a json.loads value: a list yields its elements, a
    string its characters, a dict its keys; TypeError otherwise. -/
def pyIter : JVal → Except PyErr (List JVal)
  | .arr xs => .ok xs
  | .str s => .ok (s.toList.map (fun c => .str (String.mk [c])))
  | .obj fs => .ok (fs.map (fun p => .str p.1))
  | _ => .error .typeError

/-- Hexadecimal digit test for uuid strings. -/
def isHexDigitChar (c : Char) : Bool :=
  (48 ≤ c.toNat && c.toNat ≤ 57) || (97 ≤ c.toNat && c.toNat ≤ 102) ||
    (65 ≤ c.toNat && c.toNat ≤ 70)

/-- Character test at position i of a canonical 36-character uuid string. -/
def uuidCharOk (i : Nat) (c : Char) : Bool :=
  if i == 8 || i == 13 || i == 18 || i == 23 then c == '-' else isHexDigitChar c

/-- Validity of a canonical hyphenated uuid string. -/
def isValidUUID (s : String) : Bool :=
  s.length == 36 && (s.toList.enum.all (fun p => uuidCharOk p.1 p.2))

/-- ASCII lowercasing of one character (uuid strings are ASCII). -/
def lowerChar (c : Char) : Char :=
  if 65 ≤ c.toNat && c.toNat ≤ 90 then Char.ofNat (c.toNat + 32) else c

/-- ASCII lowercasing of a string (uuid normalization). -/
def lowerString (s : String) : String :=
  String.mk (s.toList.map lowerChar)

/-- Model of uuid.UUID(s) restricted to the canonical hyphenated form (the
    only form the repository and the claims use): on success the value is
    identified with its canonical lowercase string rendering, which is what
    str(uuid) interpolates into the tool messages; on failure `none`
    (ValueError, always caught at each call site in the source). -/
def parseUUID (s : String) : Option String :=
  if isValidUUID s then some (lowerString s) else none

/-- Model of `UUID(payload[k])` wrapped in try/except at the call sites in
    src/tools.py: any raising path (payload not a dict, key indexing a
    non-dict, a non-string value, an invalid uuid string) is `none`. -/
def uuidFromField (payload : JVal) (k : String) : Option String :=
  match payload with
  | .obj fs =>
    match lookupField fs k with
    | some (.str s) => parseUUID s
    | _ => none
  | _ => none

/-- Model of `UUID(v)` in a try/except for an already-extracted value v
    (src/tools.py line 191): a non-string or invalid string raises and is
    absorbed to `none`. -/
def uuidOfJVal : JVal → Option String
  | .str s => parseUUID s
  | _ => none

/-- Hexadecimal digit character (lowercase), for json unicode escapes. -/
def hexDigitChar (n : Nat) : Char :=
  if n < 10 then Char.ofNat (48 + n) else Char.ofNat (87 + n)

/-- Four-digit unicode escape as emitted by json.dumps with ensure_ascii. -/
def uEscape (n : Nat) : String :=
  "\\u" ++ String.mk [hexDigitChar (n / 4096 % 16), hexDigitChar (n / 256 % 16),
    hexDigitChar (n / 16 % 16), hexDigitChar (n % 16)]

/-- Escaping of one character as done by json.dumps (default ensure_ascii:
    non-ASCII becomes a unicode escape). -/
def jsonEscapeChar (c : Char) : String :=
  if c = '"' then "\\\""
  else if c = '\\' then "\\\\"
  else if c = '\n' then "\\n"
  else if c = '\t' then "\\t"
  else if c = '\r' then "\\r"
  else if c.toNat = 8 then "\\b"
  else if c.toNat = 12 then "\\f"
  else if c.toNat < 32 then uEscape c.toNat
  else if c.toNat ≥ 127 then uEscape c.toNat
  else String.mk [c]

/-- A json string literal as rendered by json.dumps. -/
def jsonQuote (s : String) : String :=
  "\"" ++ String.join (s.toList.map jsonEscapeChar) ++ "\""

mutual

/-- Rendering of a value by json.dumps with default separators. -/
def jsonDump : JVal → String
  | .null => "null"
  | .bool true => "true"
  | .bool false => "false"
  | .num n => toString n
  | .str s => jsonQuote s
  | .arr xs => "[" ++ jsonDumpList xs ++ "]"
  | .obj fs => "\x7b" ++ jsonDumpFields fs ++ "\x7d"

/-- Comma-joined rendering of array elements. -/
def jsonDumpList : List JVal → String
  | [] => ""
  | [x] => jsonDump x
  | x :: y :: xs => jsonDump x ++ ", " ++ jsonDumpList (y :: xs)

/-- Comma-joined rendering of object fields. -/
def jsonDumpFields : List (String × JVal) → String
  | [] => ""
  | [(k, v)] => jsonQuote k ++ ": " ++ jsonDump v
  | (k, v) :: f :: fs => jsonQuote k ++ ": " ++ jsonDump v ++ ", " ++ jsonDumpFields (f :: fs)

end

/-- Rendering of an abstract datetime (datetime.isoformat, injective on the
    abstracted time values). -/
def isoformat (ts : Nat) : String := toString ts

/- ===================== Tool-world data model (src/models.py as used by
   src/tools.py) ===================== -/

/-- Task row as read by src/tools.py (get_task_info touches id, title,
    description, due_at, est_minutes, energy_req, priority; this is the
    due_at-keyed variant of the task schema that tools.py is written
    against). -/
structure ToolTask : Type where
  id : String
  title : String
  description : Option String
  due_at : Option Nat
  est_minutes : Option Int
  energy_req : Option String
  priority : Option String
deriving Repr, DecidableEq

/-- plan_steps row as written by insert_plan_steps (models.PlanStep fields
    it sets; the generated primary key and timestamps are elided as no
    claim observes them). -/
structure PlanStepRow : Type where
  task_id : String
  parent_id : Option String
  step_order : Int
  text : String
  status : String
deriving Repr, DecidableEq

/-- productivity_logs row as read by get_recent_logs (ts, focus_score,
    energy_level plus the filtering key user_id; the Float scores are
    abstracted to integers since no claim computes with them). -/
structure ProdLogRow : Type where
  user_id : String
  ts : Nat
  focus_score : Int
  energy_level : Int
deriving Repr, DecidableEq

/-- suggestions row as written by insert_suggestion (models.Suggestion
    fields it sets). -/
structure SuggestionRow : Type where
  user_id : String
  task_id : Option String
  message : String
  reason : Option JVal
  confidence : Option Int
deriving Repr

/-- activity_logs row (models.ActivityLog): user, optional task, action
    tag, structured details and timestamp. -/
structure ActivityLogRow : Type where
  user_id : String
  task_id : Option String
  action : String
  details : JVal
  timestamp : Nat
deriving Repr

/-- Database state seen through the SQLAlchemy session of src/tools.py:
    the tables the tools read or write, plus activity_logs (present in
    models.py; the tools never touch it, which claim C3 is about). -/
structure ToolDB : Type where
  tasks : List ToolTask
  plan_steps : List PlanStepRow
  prod_logs : List ProdLogRow
  suggestions : List SuggestionRow
  activity_logs : List ActivityLogRow
deriving Repr

/- ===================== get_task_info (src/tools.py lines 25-52) ===================== -/

/-- Result object of get_task_info for a found task, mirroring the dict
    built at src/tools.py lines 41-49: note description is
    `task.description or ""` and due_at serializes to null when absent. -/
def taskInfoJVal (t : ToolTask) : JVal :=
  .obj [("id", .str t.id),
        ("title", .str t.title),
        ("description", .str ((t.description).getD "")),
        ("due_at", match t.due_at with | some d => .str (isoformat d) | none => .null),
        ("est_minutes", match t.est_minutes with | some m => .num m | none => .null),
        ("energy_req", match t.energy_req with | some e => .str e | none => .null),
        ("priority", match t.priority with | some p => .str p | none => .null)]

/-- get_task_info: parse the uuid (malformed yields an error json), query
    the first task with that id (absent yields an error json), else dump
    the task fields. The function never raises: the only statements not
    guarded by an except are the pure field reads. -/
def get_task_info (task_id_str : String) (db : ToolDB) : String :=
  match parseUUID task_id_str with
  | none => jsonDump (.obj [("error", .str "Formato de task_id inválido.")])
  | some task_id =>
    match db.tasks.find? (fun t => t.id == task_id) with
    | none => jsonDump (.obj [("error", .str ("Tarea con id " ++ task_id ++ " no existe."))])
    | some task => jsonDump (taskInfoJVal task)

/- ===================== get_recent_logs (src/tools.py lines 62-90) ===================== -/

/-- Insertion into a descending-by-ts list, keeping descending order
    (models the ORDER BY ts DESC of the query; ties keep insertion order,
    one of the orders the database may return). -/
def insertDescTs (x : ProdLogRow) : List ProdLogRow → List ProdLogRow
  | [] => [x]
  | y :: ys => if x.ts ≤ y.ts then y :: insertDescTs x ys else x :: y :: ys

/-- Sorting a list of productivity logs by ts descending (insertion sort). -/
def sortDescTs : List ProdLogRow → List ProdLogRow
  | [] => []
  | x :: xs => insertDescTs x (sortDescTs xs)

/-- The query of src/tools.py lines 74-80: filter by user_id, order by ts
    descending, limit 5. -/
def recentLogsQuery (user_id : String) (db : ToolDB) : List ProdLogRow :=
  (sortDescTs (db.prod_logs.filter (fun l => l.user_id == user_id))).take 5

/-- Serialization of one log row as in the output loop (lines 82-87). -/
def logJVal (l : ProdLogRow) : JVal :=
  .obj [("ts", .str (isoformat l.ts)),
        ("focus_score", .num l.focus_score),
        ("energy_level", .num l.energy_level)]

/-- get_recent_logs: parse the uuid (malformed yields an error json), then
    dump the limited, descending-ordered query result. -/
def get_recent_logs (user_id_str : String) (db : ToolDB) : String :=
  match parseUUID user_id_str with
  | none => jsonDump (.obj [("error", .str "Formato de user_id inválido.")])
  | some user_id => jsonDump (.arr ((recentLogsQuery user_id db).map logJVal))

/- ===================== insert_plan_steps (src/tools.py lines 100-154) ===================== -/

/-- Success message of insert_plan_steps (line 149; the interpolated
    task_id is the canonical str(uuid)). -/
def planStepsSuccessMsg (tid : String) : String :=
  "Plan steps insertados exitosamente para task " ++ tid ++ "."

/-- Row built for one step at src/tools.py lines 139-145. -/
def mkPlanStepRow (tid : String) (order : Int) (text : String) : PlanStepRow :=
  { task_id := tid, parent_id := none, step_order := order, text := text,
    status := "pending" }

/-- The per-step loop of lines 133-146 up to its validity checks: each
    element must respond to .get (be a dict: a non-dict raises
    AttributeError, absorbed by the except of line 150) and have non-None
    order and text (else the error of line 137); the collected (order,
    text) values are the pending session adds. -/
def collectSteps : List JVal → Except String (List (JVal × JVal))
  | [] => .ok []
  | .obj fs :: rest =>
    let order := (lookupField fs "order").getD .null
    let text := (lookupField fs "text").getD .null
    if order == JVal.null || text == JVal.null then
      .error "Error: Cada step debe tener \x27order\x27 y \x27text\x27."
    else (collectSteps rest).map (fun tl => (order, text) :: tl)
  | _ :: _ => .error "Error al insertar plan_steps: AttributeError"

/-- The db.commit() of line 148 as far as column typing goes: SQLAlchemy
    accepts any value into the pending PlanStep objects, but committing a
    non-integer step_order or non-text text fails in the database, is
    caught by the except of line 150 and rolled back; on well-typed values
    the rows are produced. -/
def rowsOfSteps (tid : String) : List (JVal × JVal) → Option (List PlanStepRow)
  | [] => some []
  | (JVal.num n, JVal.str t) :: rest =>
    (rowsOfSteps tid rest).map (fun tl => mkPlanStepRow tid n t :: tl)
  | _ :: _ => none

/-- insert_plan_steps over the json.loads result of its input string
    (`none` = JSONDecodeError). Faithful control flow of lines 112-154:
    the membership tests of line 117 are the only statements outside any
    except and raise TypeError on a non-container payload; every other
    failure returns an error string with the database unchanged; the only
    commit is after the whole loop, so a success appends all rows at once
    and any failure appends none. -/
def insert_plan_steps (input : Option JVal) (db : ToolDB) :
    Except PyErr (String × ToolDB) :=
  match input with
  | none => .ok ("Error: JSON inválido en insert_plan_steps.", db)
  | some payload =>
    match pyIn "task_id" payload with
    | .error e => .error e
    | .ok hasTask =>
      if !hasTask then
        .ok ("Error: Falta \x27task_id\x27 o \x27steps\x27 en el payload.", db)
      else
        match pyIn "steps" payload with
        | .error e => .error e
        | .ok hasSteps =>
          if !hasSteps then
            .ok ("Error: Falta \x27task_id\x27 o \x27steps\x27 en el payload.", db)
          else
            match uuidFromField payload "task_id" with
            | none => .ok ("Error: task_id tiene formato inválido.", db)
            | some task_id =>
              if (db.tasks.find? (fun t => t.id == task_id)).isNone then
                .ok ("Error: No existe tarea con id " ++ task_id ++ ".", db)
              else
                match pyIter (match payload with
                  | .obj fs => (lookupField fs "steps").getD .null
                  | _ => .null) with
                | .error _ => .ok ("Error al insertar plan_steps: TypeError", db)
                | .ok stepList =>
                  match collectSteps stepList with
                  | .error msg => .ok (msg, db)
                  | .ok pairs =>
                    match rowsOfSteps task_id pairs with
                    | none => .ok ("Error al insertar plan_steps: DataError", db)
                    | some rows =>
                      .ok (planStepsSuccessMsg task_id,
                        { db with plan_steps := db.plan_steps ++ rows })

/- ===================== insert_suggestion (src/tools.py lines 164-215) ===================== -/

/-- Success message of insert_suggestion (line 210). -/
def suggestionSuccessMsg (uid : String) : String :=
  "Sugerencia insertada exitosamente (user " ++ uid ++ ")."

/-- reason is kept only when it is a dict (line 205). -/
def reasonAsDict : JVal → Option JVal
  | .obj fs => some (.obj fs)
  | _ => none

/-- The db.add + db.commit of lines 201-210: commit fails (DataError,
    caught at line 211 and rolled back) when message is not text or
    confidence is neither absent nor numeric; otherwise one suggestions
    row is appended. -/
def commitSuggestion (uid : String) (tid : Option String)
    (message reasonV confV : JVal) (db : ToolDB) : String × ToolDB :=
  match message, confV with
  | .str m, .null =>
    (suggestionSuccessMsg uid,
     { db with suggestions := db.suggestions ++
        [{ user_id := uid, task_id := tid, message := m,
           reason := reasonAsDict reasonV, confidence := none }] })
  | .str m, .num c =>
    (suggestionSuccessMsg uid,
     { db with suggestions := db.suggestions ++
        [{ user_id := uid, task_id := tid, message := m,
           reason := reasonAsDict reasonV, confidence := some c }] })
  | _, _ => ("Error al insertar sugerencia: DataError", db)

/-- insert_suggestion over the json.loads result of its input string.
    Faithful control flow of lines 175-215: membership tests of line 180
    can raise TypeError on a non-container payload; `if payload.get
    ("task_id"):` at line 189 is a truthiness test, so a present-but-falsy
    task_id (empty string, null, 0, false) is treated as absent and the
    row is created with task_id null; only a truthy task_id is parsed as a
    uuid and can fail. -/
def insert_suggestion (input : Option JVal) (db : ToolDB) :
    Except PyErr (String × ToolDB) :=
  match input with
  | none => .ok ("Error: JSON inválido en insert_suggestion.", db)
  | some payload =>
    match pyIn "user_id" payload with
    | .error e => .error e
    | .ok hasUser =>
      if !hasUser then
        .ok ("Error: Falta \x27user_id\x27 o \x27message\x27 en el payload.", db)
      else
        match pyIn "message" payload with
        | .error e => .error e
        | .ok hasMsg =>
          if !hasMsg then
            .ok ("Error: Falta \x27user_id\x27 o \x27message\x27 en el payload.", db)
          else
            match uuidFromField payload "user_id" with
            | none => .ok ("Error: user_id tiene formato inválido.", db)
            | some user_id =>
              let fs := match payload with | .obj fs => fs | _ => []
              let tv := (lookupField fs "task_id").getD .null
              let msgV := (lookupField fs "message").getD .null
              let reasonV := (lookupField fs "reason").getD .null
              let confV := (lookupField fs "confidence").getD .null
              if pyTruthy tv then
                match uuidOfJVal tv with
                | none => .ok ("Error: task_id tiene formato inválido.", db)
                | some tid => .ok (commitSuggestion user_id (some tid) msgV reasonV confV db)
              else
                .ok (commitSuggestion user_id none msgV reasonV confV db)

/- ===================== HTTP-world data model (src/main.py) ===================== -/

/-- tasks row as read and written by src/main.py over asyncpg (the
    due_date-keyed variant of the task schema). -/
structure ApiTask : Type where
  id : String
  user_id : String
  title : String
  description : Option String
  priority : String
  status : String
  due_date : Option Nat
  completed_at : Option Nat
  created_at : Nat
  updated_at : Nat
deriving Repr, DecidableEq

/-- Database state seen by the endpoints of src/main.py (the tables the
    embedded endpoints touch). -/
structure ApiDB : Type where
  tasks : List ApiTask
  activity_logs : List ActivityLogRow
deriving Repr

/-- Outcome of an endpoint as seen by the HTTP client: a value or an
    HTTPException with its status code and detail. -/
inductive HttpResult (α : Type) : Type
  | ok : α → HttpResult α
  | httpError : Nat → String → HttpResult α
deriving Repr

/-- Body of POST /tasks (schemas.CreateTaskRequest). -/
structure CreateTaskRequest : Type where
  title : String
  description : Option String
  priority : String
  status : String
  due_date : Option Nat
deriving Repr, DecidableEq

/-- Body of PUT /tasks/(task_id) (schemas.UpdateTaskRequest; `none` means
    the field was not provided). -/
structure UpdateTaskRequest : Type where
  title : Option String
  description : Option String
  priority : Option String
  status : Option String
  due_date : Option Nat
deriving Repr, DecidableEq

/- ===================== POST /tasks (src/main.py lines 178-215) ===================== -/

/-- create_task: inserts the task row, then inserts one activity_logs row
    (action "task_created", details with the title) on the same
    connection, then re-fetches and returns the created row. uuid4 and
    NOW() are passed in as the fresh id and clock. -/
def create_task (req : CreateTaskRequest) (current_user : String)
    (task_id : String) (now : Nat) (db : ApiDB) : ApiTask × ApiDB :=
  let t : ApiTask :=
    { id := task_id, user_id := current_user, title := req.title,
      description := req.description, priority := req.priority,
      status := req.status, due_date := req.due_date, completed_at := none,
      created_at := now, updated_at := now }
  let lg : ActivityLogRow :=
    { user_id := current_user, task_id := some task_id,
      action := "task_created", details := .obj [("title", .str req.title)],
      timestamp := now }
  (t, { db with tasks := db.tasks ++ [t],
                activity_logs := db.activity_logs ++ [lg] })

/- ===================== PUT /tasks/(task_id) (src/main.py lines 218-302) ===================== -/

/-- Whether any field of the update request was provided (drives both the
    dynamic UPDATE of lines 239-275 and whether an activity log is
    written). -/
def hasUpdates (r : UpdateTaskRequest) : Bool :=
  r.title.isSome || r.description.isSome || r.priority.isSome ||
    r.status.isSome || r.due_date.isSome

/-- The dynamic SET clause of lines 239-273 applied to one task row:
    provided fields overwrite, status "completed" also sets completed_at,
    and updated_at is set to NOW(). -/
def applyUpdate (r : UpdateTaskRequest) (now : Nat) (t : ApiTask) : ApiTask :=
  let t := match r.title with | some v => { t with title := v } | none => t
  let t := match r.description with | some v => { t with description := some v } | none => t
  let t := match r.priority with | some v => { t with priority := v } | none => t
  let t := match r.status with
    | some v =>
      let t := { t with status := v }
      if v == "completed" then { t with completed_at := some now } else t
    | none => t
  let t := match r.due_date with | some v => { t with due_date := some v } | none => t
  { t with updated_at := now }

/-- The details payload of the task_updated activity log (line 282:
    request.dict(exclude_unset=True), i.e. the provided fields). -/
def updateDetails (r : UpdateTaskRequest) : JVal :=
  .obj ((match r.title with | some v => [("title", JVal.str v)] | none => []) ++
        (match r.description with | some v => [("description", JVal.str v)] | none => []) ++
        (match r.priority with | some v => [("priority", JVal.str v)] | none => []) ++
        (match r.status with | some v => [("status", JVal.str v)] | none => []) ++
        (match r.due_date with | some v => [("due_date", JVal.str (isoformat v))] | none => []))

/-- update_task: ownership check first (404 when the task does not exist
    or belongs to another user); when at least one field is provided, the
    UPDATE ... WHERE id AND user_id runs and one task_updated activity log
    is inserted; with no provided fields nothing is written; the row is
    re-fetched and returned. -/
def update_task (task_id : String) (r : UpdateTaskRequest)
    (current_user : String) (now : Nat) (db : ApiDB) :
    HttpResult ApiTask × ApiDB :=
  match db.tasks.find? (fun t => t.id == task_id && t.user_id == current_user) with
  | none => (.httpError 404 "Tarea no encontrada", db)
  | some t =>
    if hasUpdates r then
      let lg : ActivityLogRow :=
        { user_id := current_user, task_id := some task_id,
          action := "task_updated", details := updateDetails r, timestamp := now }
      (.ok (applyUpdate r now t),
       { db with
          tasks := db.tasks.map (fun u =>
            if u.id == task_id && u.user_id == current_user then applyUpdate r now u else u),
          activity_logs := db.activity_logs ++ [lg] })
    else
      (.ok t, db)

/- ===================== POST /agent/generate-plan (src/main.py lines 347-376) ===================== -/

/-- Response body of a successful generate-plan call. -/
structure GeneratePlanResponse : Type where
  task_id : String
  plan_summary : String
  generated_at : Nat
deriving Repr, DecidableEq

/-- str(e) of an exception raised inside the generate_plan try block: an
    HTTPException renders as "status: detail", other exceptions are
    abstracted to their class name. -/
def innerExcText : Nat × String → String
  | (0, m) => m
  | (st, d) => toString st ++ ": " ++ d

/-- generate_plan: the whole body sits in one try whose except re-raises
    every exception as HTTPException(500, "Error generando plan: " ++
    str(e)). Inside: UUID(request.task_id) can raise ValueError; the
    ownership query runs; when no owned task matches, the code raises
    HTTPException(404, "Tarea no encontrada") — which, being an Exception,
    is caught by the same except and converted to a 500. On the success
    path generate_task_plan (process_chat, which catches all its own
    exceptions and returns a string) supplies the plan summary. -/
def generate_plan (task_id current_user : String) (planSummary : String)
    (now : Nat) (db : ApiDB) : HttpResult GeneratePlanResponse :=
  let inner : Except (Nat × String) GeneratePlanResponse :=
    match parseUUID task_id with
    | none => .error (0, "ValueError")
    | some tid =>
      if (db.tasks.find? (fun t => t.id == tid && t.user_id == current_user)).isNone then
        .error (404, "Tarea no encontrada")
      else
        .ok { task_id := task_id, plan_summary := planSummary, generated_at := now }
  match inner with
  | .ok r => .ok r
  | .error e => .httpError 500 ("Error generando plan: " ++ innerExcText e)

/- ===================== Conversation orchestrator (src/agent.py) ===================== -/

/-- One decision of the language model inside the agent loop: invoke a
    named tool on a string input, or emit the final answer. -/
inductive AgentAction : Type
  | callTool : String → String → AgentAction
  | finish : String → AgentAction

/-- The iteration cap passed to the agent executor at src/agent.py line
    126 (max_iterations=5). -/
def max_iterations : Nat := 5

/-- Modelled from the spec: the tool-selection loop of the external
    agent-execution framework (AgentExecutor, imported by src/agent.py and
    not part of this repository). Per the spec (section 4.4), the
    orchestrator repeatedly lets the model pick a tool, feeds the tool
    output back, and stops either when the model emits a final answer or
    when the hard iteration cap is reached, in which case (early stopping
    method "generate", src/agent.py line 127) a degraded final response is
    generated from the scratchpad. The model policy, the tool executor and
    the degraded-response generator are parameters; the result is the
    output string paired with the number of tool invocations performed. -/
def agentLoop (policy : String → List (String × String × String) → AgentAction)
    (toolExec : String → String → String)
    (degraded : List (String × String × String) → String)
    (input : String) :
    Nat → List (String × String × String) → String × Nat
  | 0, scratch => (degraded scratch, 0)
  | fuel + 1, scratch =>
    match policy input scratch with
    | .finish out => (out, 0)
    | .callTool nm inp =>
      let r := agentLoop policy toolExec degraded input fuel
        (scratch ++ [(nm, inp, toolExec nm inp)])
      (r.1, r.2 + 1)

/-- process_chat (src/agent.py lines 137-162): builds the context header
    from the user id and optional task id, prepends it to the user input,
    and invokes the agent executor with the iteration cap; the surrounding
    try/except cannot fire in this pure model, since the loop itself
    always returns. -/
def process_chat (policy : String → List (String × String × String) → AgentAction)
    (toolExec : String → String → String)
    (degraded : List (String × String × String) → String)
    (user_input user_id : String) (task_id : Option String) : String × Nat :=
  let context := "Usuario ID: " ++ user_id ++ "\n" ++
    (match task_id with | some t => "Tarea ID: " ++ t ++ "\n" | none => "")
  let full_input := context ++ "\n" ++ user_input
  agentLoop policy toolExec degraded full_input max_iterations []

/- ===================== Auxiliary predicates and concrete fixtures ===================== -/

/-- Test of the per-step check at src/tools.py line 136 on one raw element
    of the steps list: a dict whose order or text is absent or None is
    rejected there; a non-dict element has no order or text either (it
    fails, one line earlier, by not responding to .get at all). -/
def stepMissing : JVal → Bool
  | .obj fs =>
    ((lookupField fs "order").getD .null == JVal.null) ||
      ((lookupField fs "text").getD .null == JVal.null)
  | _ => true

/-- The failure texts insert_plan_steps can return; every one of them
    starts with the error indicator "Error". -/
def planStepsErrorText (m : String) : Prop :=
  m = "Error: JSON inválido en insert_plan_steps." ∨
  m = "Error: Falta \x27task_id\x27 o \x27steps\x27 en el payload." ∨
  m = "Error: task_id tiene formato inválido." ∨
  (∃ tid, m = "Error: No existe tarea con id " ++ tid ++ ".") ∨
  m = "Error: Cada step debe tener \x27order\x27 y \x27text\x27." ∨
  m = "Error al insertar plan_steps: TypeError" ∨
  m = "Error al insertar plan_steps: AttributeError" ∨
  m = "Error al insertar plan_steps: DataError"

/-- Persisted plan-step set of one task (the rows GET /tasks/(id)/plan
    would list for it). -/
def taskPlanSteps (tid : String) (db : ToolDB) : List PlanStepRow :=
  db.plan_steps.filter (fun s => s.task_id == tid)

/-- Canonical uuid used by the concrete checks. -/
def uuidA : String := "11111111-1111-1111-1111-111111111111"

/-- A second canonical uuid used by the concrete checks. -/
def uuidB : String := "22222222-2222-2222-2222-222222222222"

/-- Concrete stored task (description deliberately NULL, the value
    the create_task endpoint of main.py writes when the request omits it). -/
def taskA : ToolTask :=
  { id := uuidA, title := "T", description := none, due_at := none,
    est_minutes := none, energy_req := none, priority := some "medium" }

/-- Concrete pre-existing plan step of taskA. -/
def oldStep : PlanStepRow :=
  { task_id := uuidA, parent_id := none, step_order := 1, text := "viejo",
    status := "pending" }

/-- Tool-world database holding taskA and one pre-existing plan step. -/
def dbA : ToolDB :=
  { tasks := [taskA], plan_steps := [oldStep], prod_logs := [],
    suggestions := [], activity_logs := [] }

/-- Tool-world database holding taskA and no plan steps. -/
def dbB : ToolDB :=
  { tasks := [taskA], plan_steps := [], prod_logs := [], suggestions := [],
    activity_logs := [] }

/-- Concrete well-formed insert_plan_steps payload for taskA with one
    step. -/
def planInputA : JVal :=
  .obj [("task_id", .str uuidA),
        ("steps", .arr [.obj [("order", .num 1), ("text", .str "nuevo")]])]

/-- The row planInputA inserts. -/
def newStep : PlanStepRow := mkPlanStepRow uuidA 1 "nuevo"

/- ===================== Helper lemmas ===================== -/

/-- A field that looks up successfully makes the membership test true. -/
theorem lookupField_any (fs : List (String × JVal)) (k : String) (v : JVal)
    (h : lookupField fs k = some v) : fs.any (fun p => p.1 == k) = true := by
  unfold lookupField at h
  rcases ho : fs.find? (fun p => p.1 == k) with _ | p
  · rw [ho] at h; simp at h
  · have hp := List.find?_some ho
    have hm := List.mem_of_find?_eq_some ho
    exact List.any_eq_true.mpr ⟨p, hm, hp⟩

/-- Success path of insert_plan_steps on a canonical payload: a valid
    task_id of an existing task and a steps list that passes the per-step
    checks and the commit makes the tool append exactly the corresponding
    rows in one commit and report success. -/
theorem insert_plan_steps_success_lemma
    (ts tid : String) (steps : List JVal) (pairs : List (JVal × JVal))
    (rows : List PlanStepRow) (tk : ToolTask) (db : ToolDB)
    (hu : parseUUID ts = some tid)
    (hf : db.tasks.find? (fun t => t.id == tid) = some tk)
    (hc : collectSteps steps = .ok pairs)
    (hr : rowsOfSteps tid pairs = some rows) :
    insert_plan_steps (some (.obj [("task_id", .str ts), ("steps", .arr steps)])) db =
      .ok (planStepsSuccessMsg tid, { db with plan_steps := db.plan_steps ++ rows }) := by
  simp [insert_plan_steps, pyIn, uuidFromField, lookupField, hu, hf, hc, hr, pyIter]

/-- Shape of every non-raising run of insert_plan_steps: the database is
    either untouched (all failure paths return before the only commit) or
    extended by appending rows to plan_steps in that one commit; no other
    table, and no existing plan step, is ever modified. -/
theorem insert_plan_steps_shape (input : Option JVal) (db : ToolDB) (m : String) (db' : ToolDB)
    (h : insert_plan_steps input db = .ok (m, db')) :
    db' = db ∨ ∃ rows, db' = { db with plan_steps := db.plan_steps ++ rows } := by
  unfold insert_plan_steps at h
  repeat' split at h
  all_goals simp only [Except.ok.injEq, Prod.mk.injEq, reduceCtorEq] at h
  all_goals first
    | exact Or.inl h.2.symm
    | exact Or.inr ⟨_, h.2.symm⟩

/-- A steps list with a defective element (a non-dict, or a dict missing
    order or text) makes the per-step loop fail with one of its two error
    texts, before any commit. -/
theorem collectSteps_error_of_missing (steps : List JVal)
    (hd : ∃ s ∈ steps, stepMissing s = true) :
    ∃ m, collectSteps steps = .error m ∧
      (m = "Error: Cada step debe tener \x27order\x27 y \x27text\x27." ∨
       m = "Error al insertar plan_steps: AttributeError") := by
  induction steps with
  | nil => simp at hd
  | cons s rest ih =>
    rcases hd with ⟨w, hw, hmiss⟩
    rcases List.mem_cons.mp hw with hws | hwr
    · rw [← hws] at *
      cases w with
      | obj fs =>
        simp only [stepMissing] at hmiss
        exact ⟨_, by simp [collectSteps, hmiss], Or.inl rfl⟩
      | null => exact ⟨_, by simp [collectSteps], Or.inr rfl⟩
      | bool b => exact ⟨_, by simp [collectSteps], Or.inr rfl⟩
      | num n => exact ⟨_, by simp [collectSteps], Or.inr rfl⟩
      | str t => exact ⟨_, by simp [collectSteps], Or.inr rfl⟩
      | arr xs => exact ⟨_, by simp [collectSteps], Or.inr rfl⟩
    · cases s with
      | obj fs =>
        by_cases hcheck : (((lookupField fs "order").getD JVal.null == JVal.null) ||
            ((lookupField fs "text").getD JVal.null == JVal.null)) = true
        · exact ⟨_, by simp [collectSteps, hcheck], Or.inl rfl⟩
        · rcases ih ⟨w, hwr, hmiss⟩ with ⟨m, hm, hmor⟩
          refine ⟨m, ?_, hmor⟩
          simp only [collectSteps]
          rw [if_neg hcheck, hm]
          rfl
      | null => exact ⟨_, by simp [collectSteps], Or.inr rfl⟩
      | bool b => exact ⟨_, by simp [collectSteps], Or.inr rfl⟩
      | num n => exact ⟨_, by simp [collectSteps], Or.inr rfl⟩
      | str t => exact ⟨_, by simp [collectSteps], Or.inr rfl⟩
      | arr xs => exact ⟨_, by simp [collectSteps], Or.inr rfl⟩

/-- Inserting into a descending list permutes with consing. -/
theorem insertDescTs_perm (x : ProdLogRow) (l : List ProdLogRow) :
    List.Perm (insertDescTs x l) (x :: l) := by
  induction l with
  | nil => simp [insertDescTs]
  | cons y ys ih =>
    simp only [insertDescTs]
    split
    · exact (ih.cons y).trans (List.Perm.swap x y ys)
    · exact List.Perm.refl _

/-- The descending sort permutes its input. -/
theorem sortDescTs_perm (l : List ProdLogRow) : List.Perm (sortDescTs l) l := by
  induction l with
  | nil => simp [sortDescTs]
  | cons x xs ih => exact (insertDescTs_perm x (sortDescTs xs)).trans (ih.cons x)

/-- Inserting into a descending-ordered list keeps it descending. -/
theorem insertDescTs_pairwise (x : ProdLogRow) (l : List ProdLogRow)
    (h : l.Pairwise (fun a b => b.ts ≤ a.ts)) :
    (insertDescTs x l).Pairwise (fun a b => b.ts ≤ a.ts) := by
  induction l with
  | nil => simp [insertDescTs]
  | cons y ys ih =>
    rcases List.pairwise_cons.mp h with ⟨hy, hys⟩
    simp only [insertDescTs]
    split
    · refine List.pairwise_cons.mpr ⟨?_, ih hys⟩
      intro z hz
      rcases List.mem_cons.mp ((insertDescTs_perm x ys).mem_iff.mp hz) with hzx | hzys
      · subst hzx; assumption
      · exact hy z hzys
    · refine List.pairwise_cons.mpr ⟨?_, h⟩
      intro z hz
      rcases List.mem_cons.mp hz with hzy | hzys
      · subst hzy; omega
      · exact le_trans (hy z hzys) (by omega)

/-- The descending sort yields a descending-ordered list. -/
theorem sortDescTs_pairwise (l : List ProdLogRow) :
    (sortDescTs l).Pairwise (fun a b => b.ts ≤ a.ts) := by
  induction l with
  | nil => simp [sortDescTs]
  | cons x xs ih => exact insertDescTs_pairwise x (sortDescTs xs) ih

/-- Every tool-call count of the agent loop is bounded by its fuel. -/
theorem agentLoop_count_le (policy : String → List (String × String × String) → AgentAction)
    (toolExec : String → String → String)
    (degraded : List (String × String × String) → String) (input : String) :
    ∀ fuel scratch, (agentLoop policy toolExec degraded input fuel scratch).2 ≤ fuel := by
  intro fuel
  induction fuel with
  | zero => intro scratch; simp [agentLoop]
  | succ n ih =>
    intro scratch
    simp only [agentLoop]
    cases policy input scratch with
    | finish out => simp
    | callTool nm inp => simpa using Nat.succ_le_succ (ih _)

/-- When the model policy never produces a final answer, the loop ends by
    emitting the degraded response generated from some scratchpad. -/
theorem agentLoop_cap (policy : String → List (String × String × String) → AgentAction)
    (toolExec : String → String → String)
    (degraded : List (String × String × String) → String) (input : String)
    (h : ∀ inp s, ∃ nm i, policy inp s = .callTool nm i) :
    ∀ fuel scratch, ∃ sc, (agentLoop policy toolExec degraded input fuel scratch).1 = degraded sc := by
  intro fuel
  induction fuel with
  | zero => intro scratch; exact ⟨scratch, rfl⟩
  | succ n ih =>
    intro scratch
    rcases h input scratch with ⟨nm, i, hp⟩
    simp only [agentLoop, hp]
    exact ih _

/- ===================== Remaining fixtures ===================== -/

/-- Productivity-log fixture constructor (user uuidB, distinct scores to
    tell rows apart). -/
def logE (t : Nat) (v : Int) : ProdLogRow :=
  { user_id := uuidB, ts := t, focus_score := v, energy_level := v }

/-- Tool-world database in which user uuidB has exactly 7 productivity
    logs with distinct, shuffled timestamps. -/
def logsDb : ToolDB :=
  { dbB with prod_logs :=
      [logE 3 1, logE 7 2, logE 1 3, logE 5 4, logE 2 5, logE 6 6, logE 4 7] }

/-- Concrete insert_suggestion payload whose task_id is present but the
    empty string. -/
def suggInputEmptyTid : JVal :=
  .obj [("user_id", .str uuidB), ("message", .str "hola"), ("task_id", .str "")]

/-- The suggestions row the empty-task_id payload creates. -/
def suggRowEmptyTid : SuggestionRow :=
  { user_id := uuidB, task_id := none, message := "hola", reason := none,
    confidence := none }

/-- Modelled from the spec: the json object claim C7 asserts get_task_info
    returns — every field equal to the most recently written value of the
    stored row, so a NULL description renders as json null (spec-side
    definition, to be compared with the source-side taskInfoJVal). -/
def specWrittenTaskJson (t : ToolTask) : JVal :=
  .obj [("id", .str t.id),
        ("title", .str t.title),
        ("description", match t.description with | some d => .str d | none => .null),
        ("due_at", match t.due_at with | some d => .str (isoformat d) | none => .null),
        ("est_minutes", match t.est_minutes with | some m => .num m | none => .null),
        ("energy_req", match t.energy_req with | some e => .str e | none => .null),
        ("priority", match t.priority with | some p => .str p | none => .null)]

/- ===================== Claim C1 ===================== -/

/-- C1, counterexample: insert_plan_steps does not replace. With taskA
    already holding the plan step oldStep, a successful call supplying
    only newStep leaves the persisted step set [oldStep, newStep], not the
    supplied set [newStep]: the old step survives, refuting the claim that
    after the call the persisted step set of the task equals exactly the steps
    supplied in that call. -/
theorem C1_replace_counterexample :
    insert_plan_steps (some planInputA) dbA =
      .ok (planStepsSuccessMsg uuidA, { dbA with plan_steps := [oldStep, newStep] }) ∧
    taskPlanSteps uuidA { dbA with plan_steps := [oldStep, newStep] } ≠ [newStep] ∧
    oldStep ∈ taskPlanSteps uuidA { dbA with plan_steps := [oldStep, newStep] } :=
  ⟨rfl, by decide, by decide⟩

/-- C1, amended: insert_plan_steps installs the supplied list as a single
    all-or-nothing unit, but by appending: a successful call on a valid
    existing task appends exactly the rows of the supplied steps in one
    commit (first conjunct), and every non-raising run either leaves the
    database unchanged or appends rows to plan_steps — no partial mix and
    no removal of existing steps is ever observable (second conjunct). The
    existing step set is not deleted. -/
theorem C1_replace_amended :
    (∀ (ts tid : String) (steps : List JVal) (pairs : List (JVal × JVal))
        (rows : List PlanStepRow) (tk : ToolTask) (db : ToolDB),
      parseUUID ts = some tid →
      db.tasks.find? (fun t => t.id == tid) = some tk →
      collectSteps steps = .ok pairs →
      rowsOfSteps tid pairs = some rows →
      insert_plan_steps (some (.obj [("task_id", .str ts), ("steps", .arr steps)])) db =
        .ok (planStepsSuccessMsg tid, { db with plan_steps := db.plan_steps ++ rows })) ∧
    (∀ (input : Option JVal) (db : ToolDB) (m : String) (db' : ToolDB),
      insert_plan_steps input db = .ok (m, db') →
      db' = db ∨ ∃ rows, db' = { db with plan_steps := db.plan_steps ++ rows }) :=
  ⟨fun ts tid steps pairs rows tk db hu hf hc hr =>
      insert_plan_steps_success_lemma ts tid steps pairs rows tk db hu hf hc hr,
   fun input db m db' h => insert_plan_steps_shape input db m db' h⟩

/-- C1, witness: the amended theorem instantiated on the concrete fixture
    (taskA with one supplied step). -/
theorem C1_replace_witness :
    insert_plan_steps (some planInputA) dbA =
      .ok (planStepsSuccessMsg uuidA, { dbA with plan_steps := dbA.plan_steps ++ [newStep] }) :=
  C1_replace_amended.1 uuidA uuidA [JVal.obj [("order", .num 1), ("text", .str "nuevo")]]
    [(JVal.num 1, JVal.str "nuevo")] [newStep] taskA dbA (by decide) rfl rfl rfl

/- ===================== Claim C2 ===================== -/

/-- C2, counterexample: insert_plan_steps is not idempotent. Starting from
    an empty step set, one successful call persists [newStep]; repeating
    the identical call persists [newStep, newStep], a different step
    multiset and ordering. -/
theorem C2_idempotent_counterexample :
    insert_plan_steps (some planInputA) dbB =
      .ok (planStepsSuccessMsg uuidA, { dbB with plan_steps := [newStep] }) ∧
    insert_plan_steps (some planInputA) { dbB with plan_steps := [newStep] } =
      .ok (planStepsSuccessMsg uuidA, { dbB with plan_steps := [newStep, newStep] }) ∧
    ([newStep, newStep] : List PlanStepRow) ≠ [newStep] :=
  ⟨rfl, rfl, by decide⟩

/-- C2, amended: calling insert_plan_steps twice with the same task id and
    the same (non-empty, well-formed) steps appends the rows twice — the
    step list after the second call is the result of the first call followed by
    a second copy, so the two persisted states differ. -/
theorem C2_idempotent_amended
    (ts tid : String) (steps : List JVal) (pairs : List (JVal × JVal))
    (rows : List PlanStepRow) (tk : ToolTask) (db : ToolDB)
    (hu : parseUUID ts = some tid)
    (hf : db.tasks.find? (fun t => t.id == tid) = some tk)
    (hc : collectSteps steps = .ok pairs)
    (hr : rowsOfSteps tid pairs = some rows)
    (hne : rows ≠ []) :
    ∃ db1 db2,
      insert_plan_steps (some (.obj [("task_id", .str ts), ("steps", .arr steps)])) db =
        .ok (planStepsSuccessMsg tid, db1) ∧
      insert_plan_steps (some (.obj [("task_id", .str ts), ("steps", .arr steps)])) db1 =
        .ok (planStepsSuccessMsg tid, db2) ∧
      db1.plan_steps = db.plan_steps ++ rows ∧
      db2.plan_steps = db.plan_steps ++ rows ++ rows ∧
      db2.plan_steps ≠ db1.plan_steps := by
  refine ⟨_, _, insert_plan_steps_success_lemma ts tid steps pairs rows tk db hu hf hc hr,
    insert_plan_steps_success_lemma ts tid steps pairs rows tk _ hu hf hc hr, rfl, rfl, ?_⟩
  intro hEq
  have hlen := congrArg List.length hEq
  simp only [List.length_append] at hlen
  exact hne (List.length_eq_zero.mp (by omega))

/-- C2, witness: the amended theorem instantiated on the concrete fixture. -/
theorem C2_idempotent_witness :
    ∃ db1 db2,
      insert_plan_steps (some planInputA) dbB =
        .ok (planStepsSuccessMsg uuidA, db1) ∧
      insert_plan_steps (some planInputA) db1 =
        .ok (planStepsSuccessMsg uuidA, db2) ∧
      db1.plan_steps = dbB.plan_steps ++ [newStep] ∧
      db2.plan_steps = dbB.plan_steps ++ [newStep] ++ [newStep] ∧
      db2.plan_steps ≠ db1.plan_steps :=
  C2_idempotent_amended uuidA uuidA [JVal.obj [("order", .num 1), ("text", .str "nuevo")]]
    [(JVal.num 1, JVal.str "nuevo")] [newStep] taskA dbB (by decide) rfl rfl rfl (by decide)

/- ===================== Claim C3 ===================== -/

/-- C3, counterexample: a successful insert_plan_steps call mutates
    PlanStep state (the step set grows) while appending no ActivityLog
    record at all — the tool writes no audit entry, refuting the claim
    that every successful Task/PlanStep mutation carries exactly one
    ActivityLog record in the same unit of work. -/
theorem C3_audit_counterexample :
    insert_plan_steps (some planInputA) dbB =
      .ok (planStepsSuccessMsg uuidA, { dbB with plan_steps := [newStep] }) ∧
    ({ dbB with plan_steps := [newStep] } : ToolDB).plan_steps ≠ dbB.plan_steps ∧
    ({ dbB with plan_steps := [newStep] } : ToolDB).activity_logs = dbB.activity_logs :=
  ⟨rfl, by decide, rfl⟩

/-- C3, amended: the HTTP task-creation and task-update endpoints append
    exactly one ActivityLog record with matching user and task id per
    successful mutation (first two conjuncts: task_created always, and
    task_updated whenever the ownership check passes and at least one
    field is provided); the insert_plan_steps tool, however, never touches
    activity_logs on any non-raising run (third conjunct). -/
theorem C3_audit_amended :
    (∀ (req : CreateTaskRequest) (u tid : String) (now : Nat) (db : ApiDB),
      ((create_task req u tid now db).2).activity_logs =
        db.activity_logs ++
          [{ user_id := u, task_id := some tid, action := "task_created",
             details := .obj [("title", .str req.title)], timestamp := now }]) ∧
    (∀ (task_id : String) (r : UpdateTaskRequest) (u : String) (now : Nat)
        (db : ApiDB) (tk : ApiTask),
      db.tasks.find? (fun t => t.id == task_id && t.user_id == u) = some tk →
      hasUpdates r = true →
      ((update_task task_id r u now db).2).activity_logs =
        db.activity_logs ++
          [{ user_id := u, task_id := some task_id, action := "task_updated",
             details := updateDetails r, timestamp := now }]) ∧
    (∀ (input : Option JVal) (db : ToolDB) (m : String) (db' : ToolDB),
      insert_plan_steps input db = .ok (m, db') →
      db'.activity_logs = db.activity_logs) := by
  refine ⟨fun req u tid now db => rfl,
    fun task_id r u now db tk hf hup => ?_,
    fun input db m db' h => ?_⟩
  · simp [update_task, hf, hup]
  · rcases insert_plan_steps_shape input db m db' h with h1 | ⟨rows, h1⟩ <;> subst h1 <;> rfl

/-- Concrete creation request used by the C3 witness. -/
def reqW : CreateTaskRequest :=
  { title := "W", description := none, priority := "medium",
    status := "pending", due_date := none }

/-- Concrete update request used by the C3 witness. -/
def updW2 : UpdateTaskRequest :=
  { title := some "W2", description := none, priority := none,
    status := none, due_date := none }

/-- Concrete stored api-world task used by the C3 witness. -/
def taskW : ApiTask :=
  { id := uuidA, user_id := uuidB, title := "W", description := none,
    priority := "medium", status := "pending", due_date := none,
    completed_at := none, created_at := 7, updated_at := 7 }

/-- Empty api-world database. -/
def apiDbEmpty : ApiDB := { tasks := [], activity_logs := [] }

/-- Api-world database holding taskW. -/
def apiDbW : ApiDB := { tasks := [taskW], activity_logs := [] }

/-- The audit row task creation appends in the C3 witness scenario. -/
def logRowCreate : ActivityLogRow :=
  { user_id := uuidB, task_id := some uuidA, action := "task_created",
    details := .obj [("title", .str "W")], timestamp := 7 }

/-- The audit row task update appends in the C3 witness scenario. -/
def logRowUpdate : ActivityLogRow :=
  { user_id := uuidB, task_id := some uuidA, action := "task_updated",
    details := updateDetails updW2, timestamp := 9 }

/-- C3, witness: the amended theorem instantiated on a concrete create, a
    concrete update, and the concrete successful plan-step insert. -/
theorem C3_audit_witness :
    ((create_task reqW uuidB uuidA 7 apiDbEmpty).2).activity_logs = [logRowCreate] ∧
    ((update_task uuidA updW2 uuidB 9 apiDbW).2).activity_logs = [logRowUpdate] ∧
    ({ dbB with plan_steps := [newStep] } : ToolDB).activity_logs = dbB.activity_logs := by
  refine ⟨?_, ?_, C3_audit_amended.2.2 (some planInputA) dbB (planStepsSuccessMsg uuidA)
    { dbB with plan_steps := [newStep] } rfl⟩
  · simpa using C3_audit_amended.1 reqW uuidB uuidA 7 apiDbEmpty
  · simpa [logRowUpdate] using C3_audit_amended.2.1 uuidA updW2 uuidB 9 apiDbW taskW rfl rfl

/- ===================== Claim C4 ===================== -/

/-- C4: falsified by a bug in the source. The input string "5" is valid
    json, so json.loads succeeds with the number 5; the membership test
    at src/tools.py line 117 ("task_id" in payload) then raises an
    uncaught TypeError (argument of type int is not iterable), which
    propagates to the caller instead of the documented error string — the
    tool description and docstring promise a success or error message.
    The theorem evaluates the embedded tool at that input: the result is
    the exception channel, not a string. -/
theorem C4_tool_exception_bug :
    insert_plan_steps (some (.num 5)) dbB = .error .typeError := rfl

/- ===================== Claim C5 ===================== -/

/-- C5: for every model policy, tool executor, degraded-response generator
    and input, the conversation orchestrator performs at most
    max_iterations = 5 tool-selection iterations (first conjunct), and on
    a pathological policy that never produces a final answer it still
    returns, emitting the degraded response generated from the final
    scratchpad instead of looping or failing silently (second conjunct).
    The loop itself lives in the imported agent-execution framework and is
    modelled from the spec; the cap 5 and the invocation come from
    src/agent.py (create_agent, process_chat). -/
theorem C5_iteration_cap
    (policy : String → List (String × String × String) → AgentAction)
    (toolExec : String → String → String)
    (degraded : List (String × String × String) → String)
    (user_input user_id : String) (task_id : Option String) :
    (process_chat policy toolExec degraded user_input user_id task_id).2 ≤ max_iterations ∧
    ((∀ inp s, ∃ nm i, policy inp s = .callTool nm i) →
      ∃ sc, (process_chat policy toolExec degraded user_input user_id task_id).1 = degraded sc) := by
  constructor
  · exact agentLoop_count_le policy toolExec degraded _ max_iterations []
  · intro h
    exact agentLoop_cap policy toolExec degraded _ h max_iterations []

/-- C5, witness: the cap theorem instantiated on a concrete policy that
    always asks for another tool call. -/
theorem C5_iteration_cap_witness :
    (process_chat (fun _ _ => .callTool "get_task_info" uuidA)
        (fun _ _ => "obs") (fun _ => "respuesta degradada") "hola" uuidB none).2 ≤
      max_iterations ∧
    ∃ sc, (process_chat (fun _ _ => .callTool "get_task_info" uuidA)
        (fun _ _ => "obs") (fun _ => "respuesta degradada") "hola" uuidB none).1 =
      (fun _ : List (String × String × String) => "respuesta degradada") sc :=
  ⟨(C5_iteration_cap _ _ _ _ _ _).1,
   (C5_iteration_cap _ _ _ _ _ _).2 (fun _ _ => ⟨"get_task_info", uuidA, rfl⟩)⟩

/- ===================== Claim C6 ===================== -/

/-- C6: for every valid user id, get_recent_logs returns the json dump of
    the limited query — at most 5 logs (second conjunct), ordered
    most-recent-first by timestamp (third conjunct), all of them
    productivity logs of that user (fourth conjunct). The concrete 7-log
    scenario is evaluated in the witness. -/
theorem C6_recent_logs (uids uid : String) (db : ToolDB)
    (hu : parseUUID uids = some uid) :
    get_recent_logs uids db = jsonDump (.arr ((recentLogsQuery uid db).map logJVal)) ∧
    (recentLogsQuery uid db).length ≤ 5 ∧
    (recentLogsQuery uid db).Pairwise (fun a b => b.ts ≤ a.ts) ∧
    (∀ l ∈ recentLogsQuery uid db, l ∈ db.prod_logs ∧ l.user_id = uid) := by
  refine ⟨by simp [get_recent_logs, hu], ?_, ?_, ?_⟩
  · exact List.length_take_le 5
      (sortDescTs (db.prod_logs.filter (fun l => l.user_id == uid)))
  · exact (sortDescTs_pairwise
      (db.prod_logs.filter (fun l => l.user_id == uid))).sublist
      (List.take_sublist 5 _)
  · intro l hl
    have h1 : l ∈ sortDescTs (db.prod_logs.filter (fun x => x.user_id == uid)) :=
      List.mem_of_mem_take hl
    have h2 := (sortDescTs_perm _).mem_iff.mp h1
    have h3 := List.mem_filter.mp h2
    exact ⟨h3.1, by simpa using h3.2⟩

/-- C6, witness: the theorem instantiated on a user with exactly 7 stored
    logs, plus the concrete evaluation showing the result is exactly the 5
    newest logs, newest first. -/
theorem C6_recent_logs_witness :
    (get_recent_logs uuidB logsDb =
        jsonDump (.arr ((recentLogsQuery uuidB logsDb).map logJVal)) ∧
      (recentLogsQuery uuidB logsDb).length ≤ 5 ∧
      (recentLogsQuery uuidB logsDb).Pairwise (fun a b => b.ts ≤ a.ts) ∧
      (∀ l ∈ recentLogsQuery uuidB logsDb, l ∈ logsDb.prod_logs ∧ l.user_id = uuidB)) ∧
    logsDb.prod_logs.length = 7 ∧
    recentLogsQuery uuidB logsDb = [logE 7 2, logE 6 6, logE 5 4, logE 4 7, logE 3 1] :=
  ⟨C6_recent_logs uuidB uuidB logsDb (by decide), rfl, by decide⟩

/- ===================== Claim C7 ===================== -/

/-- C7, counterexample: the round trip is not exact. For the stored task
    taskA, whose most recently written description is NULL, get_task_info
    renders description as the empty string ("description or empty" at
    src/tools.py line 44), so its output differs from the json object
    whose fields equal the stored values (specWrittenTaskJson, where a
    NULL description is json null). -/
theorem C7_roundtrip_counterexample :
    get_task_info uuidA dbB = jsonDump (taskInfoJVal taskA) ∧
    taskA.description = none ∧
    get_task_info uuidA dbB ≠ jsonDump (specWrittenTaskJson taskA) :=
  ⟨rfl, rfl, by decide⟩

/-- C7, amended: for every task id string, get_task_info returns the json
    error object on a malformed id (first conjunct) and on a valid id of
    an absent task (second conjunct); for a stored task it returns the
    json object of exactly the stored fields except that a NULL
    description is rendered as the empty string and timestamps are
    serialized (third conjunct, via taskInfoJVal). -/
theorem C7_roundtrip_amended (tids : String) (db : ToolDB) :
    (parseUUID tids = none →
      get_task_info tids db = jsonDump (.obj [("error", .str "Formato de task_id inválido.")])) ∧
    (∀ tid : String, parseUUID tids = some tid →
      db.tasks.find? (fun t => t.id == tid) = none →
      get_task_info tids db =
        jsonDump (.obj [("error", .str ("Tarea con id " ++ tid ++ " no existe."))])) ∧
    (∀ (tid : String) (tk : ToolTask), parseUUID tids = some tid →
      db.tasks.find? (fun t => t.id == tid) = some tk →
      get_task_info tids db = jsonDump (taskInfoJVal tk)) :=
  ⟨fun h => by simp [get_task_info, h],
   fun tid h hf => by simp [get_task_info, h, hf],
   fun tid tk h hf => by simp [get_task_info, h, hf]⟩

/-- C7, witness: the amended theorem instantiated on a malformed id, an
    absent task and the stored task taskA. -/
theorem C7_roundtrip_witness :
    get_task_info "zzz" dbB = jsonDump (.obj [("error", .str "Formato de task_id inválido.")]) ∧
    get_task_info uuidB dbB =
      jsonDump (.obj [("error", .str ("Tarea con id " ++ uuidB ++ " no existe."))]) ∧
    get_task_info uuidA dbB = jsonDump (taskInfoJVal taskA) :=
  ⟨(C7_roundtrip_amended "zzz" dbB).1 (by decide),
   (C7_roundtrip_amended uuidB dbB).2.1 uuidB (by decide) rfl,
   (C7_roundtrip_amended uuidA dbB).2.2 uuidA taskA (by decide) rfl⟩

/- ===================== Claim C8 ===================== -/

/-- C8: falsified by a bug in the source. For an authenticated request
    whose task id does not exist or is not owned by the caller, the
    endpoint body raises HTTPException(404) — but that raise sits inside
    the same try whose blanket except re-raises every Exception
    (HTTPException included) as a 500 "Error generando plan: ...". The
    client therefore receives status 500, not the 404 the spec states.
    The theorem evaluates the embedded endpoint at a concrete
    valid-but-absent task id. -/
theorem C8_notfound_status_bug :
    generate_plan uuidA uuidB "plan" 0 apiDbEmpty =
      .httpError 500 "Error generando plan: 404: Tarea no encontrada" := rfl

/- ===================== Claim C9 ===================== -/

/-- C9, counterexample: a present-but-empty task_id does not produce an
    error. With task_id set to the empty string, the truthiness test at
    src/tools.py line 189 treats it as absent: insert_suggestion reports
    success and creates a suggestions row (with task_id null), refuting
    the claim that every present-but-invalid task_id (including
    present-but-empty values) yields an error text and no row. -/
theorem C9_taskid_counterexample :
    insert_suggestion (some suggInputEmptyTid) dbB =
      .ok (suggestionSuccessMsg uuidB, { dbB with suggestions := [suggRowEmptyTid] }) ∧
    ({ dbB with suggestions := [suggRowEmptyTid] } : ToolDB).suggestions.length = 1 ∧
    dbB.suggestions.length = 0 :=
  ⟨rfl, rfl, rfl⟩

/-- C9, amended: under a valid user_id and a present message, a task_id
    that is present and truthy but not a valid uuid makes insert_suggestion
    return the task_id-format error text and create no row (first
    conjunct); a present-but-falsy task_id (empty string, null, 0, false)
    is instead treated as absent, and the suggestion is created with
    task_id null (second conjunct). -/
theorem C9_taskid_amended (fs : List (String × JVal)) (db : ToolDB)
    (us uid : String) (tv mv : JVal)
    (huser : lookupField fs "user_id" = some (.str us))
    (hu : parseUUID us = some uid)
    (hmsg : lookupField fs "message" = some mv)
    (htv : lookupField fs "task_id" = some tv) :
    (pyTruthy tv = true → uuidOfJVal tv = none →
      insert_suggestion (some (.obj fs)) db =
        .ok ("Error: task_id tiene formato inválido.", db)) ∧
    (pyTruthy tv = false → ∀ msg : String, mv = .str msg →
      (lookupField fs "confidence").getD .null = .null →
      insert_suggestion (some (.obj fs)) db =
        .ok (suggestionSuccessMsg uid,
          { db with suggestions := db.suggestions ++
              [{ user_id := uid, task_id := none, message := msg,
                 reason := reasonAsDict ((lookupField fs "reason").getD .null),
                 confidence := none }] })) := by
  have ha1 := lookupField_any fs "user_id" _ huser
  have ha2 := lookupField_any fs "message" _ hmsg
  constructor
  · intro htr hbad
    simp [insert_suggestion, pyIn, ha1, ha2, uuidFromField, huser, hu, htv, htr, hbad]
  · intro htr msg hmveq hconf
    subst hmveq
    simp [insert_suggestion, pyIn, ha1, ha2, uuidFromField, huser, hu, htv, htr, hconf,
      hmsg, commitSuggestion]

/-- C9, witness: the amended theorem instantiated on a truthy invalid
    task_id (error, no row) and on the empty-string task_id (row created
    with task_id null). -/
theorem C9_taskid_witness :
    insert_suggestion (some (.obj [("user_id", .str uuidB), ("message", .str "hola"),
        ("task_id", .str "zzz")])) dbB =
      .ok ("Error: task_id tiene formato inválido.", dbB) ∧
    insert_suggestion (some suggInputEmptyTid) dbB =
      .ok (suggestionSuccessMsg uuidB,
        { dbB with suggestions := dbB.suggestions ++ [suggRowEmptyTid] }) :=
  ⟨(C9_taskid_amended [("user_id", .str uuidB), ("message", .str "hola"),
        ("task_id", .str "zzz")] dbB uuidB uuidB (.str "zzz") (.str "hola")
      rfl (by decide) rfl rfl).1 rfl rfl,
   (C9_taskid_amended [("user_id", .str uuidB), ("message", .str "hola"),
        ("task_id", .str "")] dbB uuidB uuidB (.str "") (.str "hola")
      rfl (by decide) rfl rfl).2 rfl "hola" rfl rfl⟩

/- ===================== Claim C10 ===================== -/

/-- C10: a steps list containing an element without order or without text
    (or no element a dict at all) makes insert_plan_steps return an error
    string and persist nothing: the database — in particular the stored
    plan-step set of the task — is returned unchanged, because the per-step
    check or the per-element .get fails before the single commit, and the
    session is closed without committing the earlier adds. -/
theorem C10_defective_step (fs : List (String × JVal)) (steps : List JVal) (db : ToolDB)
    (hs : lookupField fs "steps" = some (.arr steps))
    (hd : ∃ s ∈ steps, stepMissing s = true) :
    ∃ m, insert_plan_steps (some (.obj fs)) db = .ok (m, db) ∧ planStepsErrorText m := by
  obtain ⟨me, hme, hmor⟩ := collectSteps_error_of_missing steps hd
  have hsAny := lookupField_any fs "steps" _ hs
  unfold insert_plan_steps
  simp only [pyIn, hsAny]
  cases hTask : fs.any (fun p => p.1 == "task_id") with
  | false =>
    exact ⟨"Error: Falta \x27task_id\x27 o \x27steps\x27 en el payload.", by simp,
      Or.inr (Or.inl rfl)⟩
  | true =>
    cases huu : uuidFromField (.obj fs) "task_id" with
    | none =>
      exact ⟨"Error: task_id tiene formato inválido.", by simp [huu],
        Or.inr (Or.inr (Or.inl rfl))⟩
    | some tid =>
      cases hfind : (db.tasks.find? (fun t => t.id == tid)).isNone with
      | true =>
        exact ⟨"Error: No existe tarea con id " ++ tid ++ ".", by simp [huu, hfind],
          Or.inr (Or.inr (Or.inr (Or.inl ⟨tid, rfl⟩)))⟩
      | false =>
        refine ⟨me, by simp [huu, hfind, hs, pyIter, hme], ?_⟩
        rcases hmor with h | h
        · exact Or.inr (Or.inr (Or.inr (Or.inr (Or.inl h))))
        · exact Or.inr (Or.inr (Or.inr (Or.inr (Or.inr (Or.inr (Or.inl h))))))

/-- C10, witness: the theorem instantiated on a payload whose second step
    lacks text; the evaluation in the proof of the hypothesis shows the
    defect, and the conclusion yields an error message with the database
    unchanged. -/
theorem C10_defective_step_witness :
    ∃ m, insert_plan_steps (some (.obj [("task_id", .str uuidA),
        ("steps", .arr [.obj [("order", .num 1), ("text", .str "a")],
                        .obj [("order", .num 2)]])])) dbA =
      .ok (m, dbA) ∧ planStepsErrorText m :=
  C10_defective_step [("task_id", .str uuidA),
      ("steps", .arr [.obj [("order", .num 1), ("text", .str "a")],
                      .obj [("order", .num 2)]])]
    [.obj [("order", .num 1), ("text", .str "a")], .obj [("order", .num 2)]] dbA rfl
    ⟨.obj [("order", .num 2)], List.mem_cons_of_mem _ (List.mem_cons_self _ _), rfl⟩
